import Mathlib

/-!
Shallow embedding of the depth-interval resolver and the Munsell-to-CIELAB
converter of `terraso_backend/apps/export` (`depth_helpers.py` and
`fetch_data.py`), together with theorems checking the module's natural
language specification against this embedding.

Conventions used throughout:
- Python dicts materialized by the GraphQL queries are modelled as typed
  records; a field that can be absent or null is an `Option`.  A fetched
  record (site, project, ...) is never an empty dict, so Python truthiness
  of such a record coincides with `Option.isSome`.
- Python numbers are modelled as `ℚ`.  The concrete constants appearing in
  the code (10, 2.5, 100) are exactly representable in binary floating
  point, so the rational model agrees with float evaluation on them.
- Code that can raise is modelled in `Except String`; an `Except.error`
  value models a Python exception propagating out of the function.
-/

namespace TerrasoExport

/-- Models the dict stored under a `depthInterval` key.  Both bounds can be
absent or null, hence `Option`.  The field `end_` models the Python key
`end` (a Lean keyword). -/
structure DepthInterval where
  start : Option Int
  end_ : Option Int
  deriving DecidableEq, Repr

/-- Models an interval dict: `{"label": ..., "depthInterval": {...}}`.  The
per-interval enabled flags fetched by the query are never read by the
export logic and are omitted. -/
structure Interval where
  label : String
  depthInterval : Option DepthInterval
  deriving DecidableEq, Repr

/-- Models `project.soilSettings`. -/
structure SoilSettings where
  depthIntervalPreset : Option String
  depthIntervals : Option (List Interval)
  deriving DecidableEq, Repr

/-- Models `site.project`.  The query always fetches `id`, `name`, ... so a
non-null project dict is nonempty (truthy); only `soilSettings` is read by
the code under analysis. -/
structure Project where
  soilSettings : Option SoilSettings
  deriving DecidableEq, Repr

/-- Models one entry of `soilData.depthDependentData`.  The color-photo
fields fetched by the query are never read by the assembler and are
omitted. -/
structure Measurement where
  depthInterval : Option DepthInterval
  texture : Option String
  rockFragmentVolume : Option String
  colorHue : Option ℚ
  colorValue : Option ℚ
  colorChroma : Option ℚ
  deriving DecidableEq, Repr

/-- Models `site.soilData` (the fields read by the export logic). -/
structure SoilData where
  depthIntervalPreset : Option String
  depthIntervals : Option (List Interval)
  depthDependentData : Option (List Measurement)
  slopeSteepnessDegree : Option ℚ
  surfaceCracksSelect : Option String
  deriving DecidableEq, Repr

/-- Models a fetched site record (the fields read by the export logic). -/
structure Site where
  id : Option String
  latitude : Option ℚ
  longitude : Option ℚ
  project : Option Project
  soilData : Option SoilData
  deriving DecidableEq, Repr

/- Modelled from the spec: the four preset tags of the
`DepthIntervalPreset` enum in `apps/soil_id/models/project_soil_settings.py`
(that file is outside the analyzed sources; the spec fixes the tags
`NRCS`, `BLM`, `CUSTOM`, `NONE`). -/

def PRESET_NRCS : String := "NRCS"

def PRESET_BLM : String := "BLM"

def PRESET_CUSTOM : String := "CUSTOM"

def PRESET_NONE : String := "NONE"

/-- Modelled from the spec: `NRCSIntervalDefaults` lives in
`apps/soil_id/models/project_soil_settings.py`, outside the analyzed
sources.  The spec only says it is a fixed built-in list of reference rows
`{"depth_interval_start": s, "depth_interval_end": e}`; no theorem below
depends on the particular entries, so a representative fixed list stands
in. -/
def NRCSIntervalDefaults : List (Int × Int) :=
  [(0, 5), (5, 15), (15, 30), (30, 60), (60, 100), (100, 200)]

/-- Modelled from the spec: `BLMIntervalDefaults`, same situation as
`NRCSIntervalDefaults`. -/
def BLMIntervalDefaults : List (Int × Int) :=
  [(0, 1), (1, 10), (10, 20), (20, 50), (50, 70)]

/-- Embeds `_build_depth_intervals` of `depth_helpers.py` (the leading
underscore is dropped): converts default rows to export-format intervals
with a `"s-e cm"` label. -/
def build_depth_intervals (interval_defaults : List (Int × Int)) : List Interval :=
  interval_defaults.map fun d =>
    { label := toString d.1 ++ "-" ++ toString d.2 ++ " cm",
      depthInterval := some { start := some d.1, end_ := some d.2 } }

/-- Embeds `NRCS_DEPTH_INTERVALS` of `depth_helpers.py`. -/
def NRCS_DEPTH_INTERVALS : List Interval :=
  build_depth_intervals NRCSIntervalDefaults

/-- Embeds `BLM_DEPTH_INTERVALS` of `depth_helpers.py`. -/
def BLM_DEPTH_INTERVALS : List Interval :=
  build_depth_intervals BLMIntervalDefaults

/-- Shared core of `depth_key` of `depth_helpers.py`:
`interval.get("depthInterval", {})` followed by `.get("start")` /
`.get("end")` (a missing `depthInterval` dict yields `(None, None)`). -/
def depth_key_di (di : Option DepthInterval) : Option Int × Option Int :=
  match di with
  | none => (none, none)
  | some d => (d.start, d.end_)

/-- Embeds `depth_key` of `depth_helpers.py` applied to an interval dict. -/
def depth_key (interval : Interval) : Option Int × Option Int :=
  depth_key_di interval.depthInterval

/-- Embeds `depth_key` of `depth_helpers.py` applied to a measurement dict
(the Python function is one and the same; the typed embedding needs one
entry point per record type). -/
def depth_key_m (measurement : Measurement) : Option Int × Option Int :=
  depth_key_di measurement.depthInterval

/-- Python `x or d` for an optional string `x`: the fallback fires when the
value is missing (None) or empty (both falsy). -/
def pyOrStr (x : Option String) (d : String) : String :=
  match x with
  | some s => if s = "" then d else s
  | none => d

/-- Models the empty dict produced by `project.get("soilSettings") or {}`. -/
def emptySoilSettings : SoilSettings :=
  { depthIntervalPreset := none, depthIntervals := none }

/-- Models the empty dict produced by `site.get("soilData", {})`. -/
def emptySoilData : SoilData :=
  { depthIntervalPreset := none, depthIntervals := none,
    depthDependentData := none, slopeSteepnessDegree := none,
    surfaceCracksSelect := none }

/-- Embeds `get_effective_preset` of `depth_helpers.py`.  `if project:`
tests Python truthiness; a fetched project dict is nonempty, so this is
`isSome` here (see the match). -/
def get_effective_preset (site : Site) : String :=
  match site.project with
  | some project =>
      pyOrStr ((project.soilSettings.getD emptySoilSettings).depthIntervalPreset) PRESET_NONE
  | none =>
      let soil_data := site.soilData.getD emptySoilData
      let preset := soil_data.depthIntervalPreset
      if preset = some PRESET_CUSTOM then PRESET_NONE else pyOrStr preset PRESET_NONE

/-- Embeds `get_preset_intervals` of `depth_helpers.py`.  In the branch
`preset == PRESET_CUSTOM and site`, the source runs
`project = site.get("project")` and then `project.get("soilSettings")`
without a null check: when the site has no project this is
`None.get(...)`, a Python `AttributeError`, modelled as `Except.error`. -/
def get_preset_intervals (preset : String) (site : Option Site) :
    Except String (List Interval) :=
  if preset = PRESET_NRCS then .ok NRCS_DEPTH_INTERVALS
  else if preset = PRESET_BLM then .ok BLM_DEPTH_INTERVALS
  else
    match site with
    | some s =>
        if preset = PRESET_CUSTOM then
          match s.project with
          | some project =>
              .ok ((project.soilSettings.getD emptySoilSettings).depthIntervals.getD [])
          | none => .error "AttributeError: NoneType object has no attribute get"
        else .ok []
    | none => .ok []

/-- Sort key used by `get_visible_intervals`:
`depth_key(x[0])[0] or 0`.  For an integer start, `or 0` maps both `None`
and `0` to `0`, which is exactly `Option.getD 0`. -/
def sortKeyOf (x : Interval × String) : Int :=
  ((depth_key x.1).1).getD 0

/-- The list built by `get_visible_intervals` of `depth_helpers.py` before
its final `result.sort(...)`: preset intervals tagged with the effective
preset, then the site's own custom intervals tagged `CUSTOM`. -/
def visible_unsorted (site : Site) : Except String (List (Interval × String)) := do
  let effective_preset := get_effective_preset site
  let preset_intervals ← get_preset_intervals effective_preset (some site)
  let tagged := preset_intervals.map fun interval => (interval, effective_preset)
  let site_intervals := (site.soilData.getD emptySoilData).depthIntervals.getD []
  .ok (tagged ++ site_intervals.map fun si => (si, PRESET_CUSTOM))

/-- Embeds `get_visible_intervals` of `depth_helpers.py`.  Python's
`list.sort(key=...)` is a stable ascending sort, modelled by insertion
sort with the reflexive by-key order (stability is proved below, not
assumed). -/
def get_visible_intervals (site : Site) : Except String (List (Interval × String)) := do
  let result ← visible_unsorted site
  .ok (result.insertionSort fun a b => sortKeyOf a ≤ sortKeyOf b)

/-- Embeds `_HUE_NAMES` of `fetch_data.py` (leading underscore dropped):
hue letter names in cyclic order for the 0-100 `colorHue` encoding. -/
def HUE_NAMES : List String :=
  ["R", "YR", "Y", "GY", "G", "BG", "B", "PB", "P", "RP"]

/-- Python 3 `round` to an integer (round half to even), on the rational
model of floats. -/
def pyRound (q : ℚ) : Int :=
  if q - (⌊q⌋ : ℚ) < 1 / 2 then ⌊q⌋
  else if (1 : ℚ) / 2 < q - (⌊q⌋ : ℚ) then ⌊q⌋ + 1
  else if ⌊q⌋ % 2 = 0 then ⌊q⌋ else ⌊q⌋ + 1

/-- Python list indexing `l[i]`: a nonnegative index counts from the front,
a negative one from the back, and an out-of-range index raises
`IndexError`, modelled as `none`. -/
def pyIndex (l : List String) (i : Int) : Option String :=
  if 0 ≤ i then l.get? i.toNat
  else if 0 ≤ (l.length : Int) + i then l.get? ((l.length : Int) + i).toNat
  else none

/-- Python `f"{x:g}"` applied to the value `(substep * 5) / 2` of
`fetch_data.py`: an integral value prints with no decimal point (`5`, not
`5.0`), a half prints with one decimal.  Every call site passes
`substep` in `{1, 2, 3, 4}` (the rollback in the decoder replaces `0`
by `4`), so only the values `2.5`, `5`, `7.5`, `10` occur. -/
def gFormatHalf (s : Int) : String :=
  let n := s * 5
  if n % 2 = 0 then toString (n / 2) else toString ((n - 1) / 2) ++ ".5"

/-- Key type of the Munsell lookup dict: `(hue_string, value, chroma)`. -/
abbrev MunsellKey := String × Int × Int

/-- A CIELAB triple `(L, A, B)`. -/
abbrev Lab := ℚ × ℚ × ℚ

/-- The Munsell-to-CIELAB lookup table `_munsell_lab_table` of
`fetch_data.py`, modelled as an association list (the CSV has distinct
keys, so first-binding-wins lookup agrees with the Python dict).  The
theorems take the table as a parameter, covering every possible load
result including the empty degraded-mode table. -/
abbrev MunsellTable := List (MunsellKey × Lab)

/-- Python `dict.get` on the table model. -/
def tableGet (table : MunsellTable) (k : MunsellKey) : Option Lab :=
  (table.find? fun row => decide (row.1 = k)).map fun row => row.2

/-- The `hue == 100` wraparound normalization at the top of the chromatic
branch of `munsell_to_lab`. -/
def normalized_hue (color_hue : ℚ) : ℚ :=
  if color_hue = 100 then 0 else color_hue

/-- The local `hue_index = int(hue // 10)` of the decoder (float floor
division followed by an exact `int` conversion is the mathematical
floor). -/
def hue_index_of (hue : ℚ) : Int :=
  ⌊hue / 10⌋

/-- The local `substep = round((hue % 10) / 2.5)` of the decoder, before
the rollback; Python `%` on numbers is `hue - 10 * floor(hue / 10)`. -/
def raw_substep (hue : ℚ) : Int :=
  pyRound ((hue - 10 * (hue_index_of hue : ℚ)) / (5 / 2))

/-- The chromatic-hue decoding inside `munsell_to_lab` (`fetch_data.py`
lines 93-106), factored out so that theorems can speak about the decoded
Munsell hue string: the `hue == 100` wraparound, `hue_index = int(hue // 10)`,
`substep = round((hue % 10) / 2.5)`, the `substep == 0` rollback to the
previous family with `substep = 4`, and the final
`f"{(substep * 5) / 2:g}{_HUE_NAMES[hue_index]}"` format. -/
def decode_hue_str (color_hue : ℚ) : Except String String :=
  let hue := normalized_hue color_hue
  let hue_index := if raw_substep hue = 0 then (hue_index_of hue + 9) % 10 else hue_index_of hue
  let substep := if raw_substep hue = 0 then 4 else raw_substep hue
  match pyIndex HUE_NAMES hue_index with
  | some hue_name => .ok (gFormatHalf substep ++ hue_name)
  | none => .error "IndexError: list index out of range"

/-- Embeds `munsell_to_lab` of `fetch_data.py`.  The table parameter stands
for `_load_munsell_lab_table()`; `if not table` is the emptiness test.  A
result of `Except.ok none` models the Python return value `None`. -/
def munsell_to_lab (table : MunsellTable) (color_hue color_value color_chroma : ℚ) :
    Except String (Option Lab) :=
  if table.isEmpty then .ok none
  else
    let chroma := pyRound color_chroma
    let value := pyRound color_value
    if chroma = 0 then .ok (tableGet table ("N", value, 0))
    else
      match decode_hue_str color_hue with
      | .ok hue_str => .ok (tableGet table (hue_str, value, chroma))
      | .error e => .error e

/-- One output entry of the assembler's `depthDependentData` list.  The
`depthInterval` key is always written; an `Option` field with value `none`
models a key that is absent from the dict (the code never stores a null
under these keys). -/
structure DepthEntry where
  depthInterval : Option Int × Option Int
  texture : Option String
  rockFragmentVolume : Option String
  colorLAB : Option Lab
  deriving DecidableEq, Repr

/-- Python truthiness filter applied by `if measurement.get("texture"):`
and `if measurement.get("rockFragmentVolume"):` — a missing value or an
empty string is falsy and leaves the key out of the entry. -/
def truthyStrOpt (x : Option String) : Option String :=
  match x with
  | some t => if t = "" then none else some t
  | none => none

/-- The per-measurement body of the assembly loop in `fetch_soil_id`
(`fetch_data.py` lines 310-338): copy the depth interval, include
`texture` / `rockFragmentVolume` when truthy, and attach `colorLAB` when
all three color channels are non-null (`is not None`) and the converter
returns a value (a non-empty Python tuple is always truthy, so `if lab:`
is exactly non-`None`). -/
def build_depth_entry (table : MunsellTable) (measurement : Measurement) :
    Except String DepthEntry :=
  let colorResult : Except String (Option Lab) :=
    match measurement.colorHue, measurement.colorValue, measurement.colorChroma with
    | some h, some v, some c => munsell_to_lab table h v c
    | _, _, _ => Except.ok none
  match colorResult with
  | .ok colorLAB =>
      .ok { depthInterval := depth_key_di measurement.depthInterval,
            texture := truthyStrOpt measurement.texture,
            rockFragmentVolume := truthyStrOpt measurement.rockFragmentVolume,
            colorLAB := colorLAB }
  | .error e => .error e

/-- The assembly loop of `fetch_soil_id` (`fetch_data.py` lines 306-340):
measurements whose `(start, end)` key is not among the visible keys are
skipped (`continue`), the rest are turned into entries in input order.
The Python `visible_keys` set is modelled as a list used only through
membership. -/
def assembleDepthData (table : MunsellTable) (visible_keys : List (Option Int × Option Int)) :
    List Measurement → Except String (List DepthEntry)
  | [] => .ok []
  | measurement :: rest =>
    if depth_key_m measurement ∈ visible_keys then do
      let entry ← build_depth_entry table measurement
      let out ← assembleDepthData table visible_keys rest
      .ok (entry :: out)
    else assembleDepthData table visible_keys rest

/-- Models `soil_data.get("surfaceCracksSelect", "NO_CRACKING")`: the
`.get` default fires only when the key is absent, which happens exactly
when `soilData` itself was missing (`site.get("soilData", {})` yielded an
empty dict); the query otherwise always materializes the key, possibly as
null. -/
def surfaceCracksOf (site : Site) : Option String :=
  match site.soilData with
  | none => some "NO_CRACKING"
  | some sd => sd.surfaceCracksSelect

/-- The observable outcome of `fetch_soil_id` (`fetch_data.py`): the cached
value is returned, or the structured failure dict
`{"error": message}`, or execution reaches the downstream
`schema.execute` matching call with the given variables (the call itself
is an external collaborator, out of scope), or a Python exception
propagates.  Cached payloads are opaque and modelled as strings. -/
inductive FetchOutcome where
  | cached (value : String)
  | errorResult (message : String)
  | downstream (latitude longitude : Option ℚ) (slope : Option ℚ)
      (surfaceCracks : Option String) (depthDependentData : List DepthEntry)
  | exception (message : String)
  deriving DecidableEq, Repr

/-- Python falsiness of an optional number: `None` and `0` are falsy. -/
def pyFalsyNum (x : Option ℚ) : Bool :=
  match x with
  | none => true
  | some q => decide (q = 0)

/-- The in-memory cache `_soil_id_cache` of `fetch_data.py`, keyed by site
id string; its initial (module-load / just-cleared) state is `[]`. -/
abbrev SoilIdCache := List (String × String)

/-- Python dict lookup on the cache model. -/
def cacheGet (cache : SoilIdCache) (k : String) : Option String :=
  (cache.find? fun e => decide (e.1 = k)).map fun e => e.2

/-- The cache consultation of `fetch_soil_id`:
`_USE_SOIL_ID_CACHE and site_id and str(site_id) in _soil_id_cache`
(a missing or empty site id is falsy and skips the cache). -/
def cacheHit (use_cache : Bool) (cache : SoilIdCache) (site : Site) : Option String :=
  if use_cache then
    match site.id with
    | some i => if i = "" then none else cacheGet cache i
    | none => none
  else none

/-- Embeds `fetch_soil_id` of `fetch_data.py` up to the downstream
`schema.execute` call: cache consultation first, then the coordinate
truthiness check with the structured failure dict, then the construction
of the soil-id input data (visible-interval filtering plus per-measurement
enrichment). -/
def fetch_soil_id (use_cache : Bool) (cache : SoilIdCache) (table : MunsellTable)
    (site : Site) : FetchOutcome :=
  match cacheHit use_cache cache site with
  | some v => .cached v
  | none =>
    let latitude := site.latitude
    let longitude := site.longitude
    if pyFalsyNum latitude || pyFalsyNum longitude then
      .errorResult "Site missing latitude or longitude"
    else
      let soil_data := site.soilData.getD emptySoilData
      match get_visible_intervals site with
      | .error e => .exception e
      | .ok visible =>
        let visible_keys := visible.map fun iv => depth_key iv.1
        match assembleDepthData table visible_keys (soil_data.depthDependentData.getD []) with
        | .error e => .exception e
        | .ok dd =>
            .downstream latitude longitude soil_data.slopeSteepnessDegree
              (surfaceCracksOf site) dd

/-! Concrete fixtures for the instance theorems below. -/

/-- A minimal fetched site: no id, no coordinates, no project, no soil
data. -/
def bareSite : Site :=
  { id := none, latitude := none, longitude := none, project := none, soilData := none }

/-- Builds a site around the two components the resolver reads. -/
def mkSite (project : Option Project) (soilData : Option SoilData) : Site :=
  { id := none, latitude := none, longitude := none, project := project, soilData := soilData }

/-- A fully-populated depth interval dict. -/
def sampleDI (s e : Int) : DepthInterval :=
  { start := some s, end_ := some e }

/-- An interval dict with both bounds. -/
def sampleInterval (s e : Int) : Interval :=
  { label := toString s ++ "-" ++ toString e ++ " cm",
    depthInterval := some (sampleDI s e) }

/-- A project configured with the given preset and no custom intervals. -/
def projectWithPreset (p : Option String) : Project :=
  { soilSettings := some { depthIntervalPreset := p, depthIntervals := none } }

/-- Soil data with the given preset and site-level custom intervals. -/
def soilDataWith (preset : Option String) (intervals : List Interval) : SoilData :=
  { emptySoilData with depthIntervalPreset := preset, depthIntervals := some intervals }

/-- A measurement fixture. -/
def mkMeasurement (s e : Int) (tex rfv : Option String) (h v c : Option ℚ) : Measurement :=
  { depthInterval := some (sampleDI s e), texture := tex, rockFragmentVolume := rfv,
    colorHue := h, colorValue := v, colorChroma := c }

/-- A two-row lookup table fixture: one neutral entry and one chromatic
entry. -/
def tableW : MunsellTable :=
  [(("N", 5, 0), (10, 20, 30)), (("5R", 5, 1), (1, 2, 3))]

/-- A cache fixture holding one payload. -/
def cacheW : SoilIdCache := [("site1", "cachedPayload")]

/-- A site fixture with id and coordinates. -/
def siteWithId (i : Option String) (lat lng : Option ℚ) : Site :=
  { id := i, latitude := lat, longitude := lng, project := none, soilData := none }

/-- A site fixture for the assembler: no preset, one custom interval
`0-10`. -/
def site7 : Site :=
  mkSite none (some (soilDataWith none [sampleInterval 0 10]))

/-- A measurement inside the visible interval `0-10`. -/
def m1 : Measurement :=
  mkMeasurement 0 10 (some "CLAY") none none none none

/-- A measurement outside every visible interval. -/
def m2 : Measurement :=
  mkMeasurement 20 30 (some "LOAM") none none none none

/-- A measurement fixture with a truthy texture, a falsy (empty-string)
rock fragment volume, and a complete color triple hitting the `("5R",5,1)`
row of `tableW`. -/
def m8 : Measurement :=
  mkMeasurement 0 10 (some "CLAY") (some "") (some 5) (some 5) (some 1)

/-- The entry built from `m8` over `tableW`. -/
def e8 : DepthEntry :=
  { depthInterval := (some 0, some 10), texture := some "CLAY",
    rockFragmentVolume := none, colorLAB := some (1, 2, 3) }

/-- The spec's section-8 scenario fixture: no project, site preset `NRCS`,
one site-level custom interval `0-10` overlapping the NRCS `0-5` row. -/
def site4 : Site :=
  mkSite none (some (soilDataWith (some PRESET_NRCS) [sampleInterval 0 10]))

/-- The visible-interval list of `site4`: NRCS rows tagged `NRCS`, the
custom interval tagged `CUSTOM`, stably sorted by start (the tie at start
0 keeps the preset row first). -/
def l4 : List (Interval × String) :=
  [(sampleInterval 0 5, PRESET_NRCS), (sampleInterval 0 10, PRESET_CUSTOM),
    (sampleInterval 5 15, PRESET_NRCS), (sampleInterval 15 30, PRESET_NRCS),
    (sampleInterval 30 60, PRESET_NRCS), (sampleInterval 60 100, PRESET_NRCS),
    (sampleInterval 100 200, PRESET_NRCS)]

deriving instance DecidableEq for Except

/-!
Theorems.  Inside the sections below, the Batteries rational-arithmetic
primitives are made semireducible locally so that concrete-instance
statements can be settled by kernel evaluation (`decide`); the attribute
is kept scoped because symbolic proofs reduce better with the primitives
left opaque. -/

section ConcreteEval

attribute [local semireducible] Rat.mul Rat.inv Rat.add Rat.sub

/-- Python rounding of the literal `0` is `0` (helper for the
neutral-chroma theorems). -/
theorem pyRound_zero : pyRound 0 = 0 := by decide

/-- C1 is false as stated: for `hue100 = 5` the decoder computes
`substep = round(5 / 2.5) = 2` and step `2 * 5 / 2 = 5`, yielding the
Munsell hue string `"5R"`, not `"2.5R"`; consequently a table holding only
a `("2.5R", 5, 1)` row is missed at `hue100 = 5` with nonzero rounded
chroma. -/
theorem c1_counterexample :
    decode_hue_str 5 = .ok "5R" ∧ decode_hue_str 5 ≠ .ok "2.5R" ∧
      munsell_to_lab [(("2.5R", 5, 1), (10, 20, 30))] 5 5 1 = .ok none := by
  decide

/-- C1 (amended): boundary hue decoding of `munsell_to_lab`: an input with
`hue100 = 5` decodes to family `R` with step `5`, i.e. the hue string
`"5R"` (matching the repository's fixture-based hue-decoding test); an
input with `hue100 = 0` falls under the `substep == 0` rollback rule and
decodes to family `RP` with step `10`, i.e. `"10RP"`.  With nonzero
rounded chroma these strings drive the table lookup. -/
theorem c1_amended :
    decode_hue_str 5 = .ok "5R" ∧ decode_hue_str 0 = .ok "10RP" ∧
      munsell_to_lab [(("5R", 5, 1), (1, 2, 3))] 5 5 1 = .ok (some (1, 2, 3)) ∧
      munsell_to_lab [(("10RP", 5, 1), (1, 2, 3))] 0 5 1 = .ok (some (1, 2, 3)) := by
  decide

/-- C2 is false as stated: with preset tag `CUSTOM` and a (truthy) site
argument whose `project` is missing, `get_preset_intervals` evaluates
`None.get("soilSettings")` and raises `AttributeError` instead of
returning a list. -/
theorem c2_counterexample :
    get_preset_intervals PRESET_CUSTOM (some bareSite) =
      .error "AttributeError: NoneType object has no attribute get" := by
  decide

/-- C2 (amended): for every preset tag and every site argument,
`get_preset_intervals` returns a list without raising — provided that when
the preset is `CUSTOM` and a site is supplied, the site has a project
(that is the only call path which reaches the `CUSTOM` branch, per
`get_effective_preset`; without it the code raises `AttributeError`, see
the counterexample).  Whenever the nested data it needs is absent, it
returns the empty list. -/
theorem c2_amended (preset : String) (site : Option Site)
    (h : preset = PRESET_CUSTOM → ∀ s, site = some s → s.project ≠ none) :
    (∃ l, get_preset_intervals preset site = Except.ok l) ∧
      (preset ∉ [PRESET_NRCS, PRESET_BLM, PRESET_CUSTOM] →
        get_preset_intervals preset site = Except.ok []) ∧
      (site = none → preset ∉ [PRESET_NRCS, PRESET_BLM] →
        get_preset_intervals preset site = Except.ok []) ∧
      (∀ s p, site = some s → s.project = some p → p.soilSettings = none →
        preset ∉ [PRESET_NRCS, PRESET_BLM] →
        get_preset_intervals preset site = Except.ok []) := by
  by_cases h1 : preset = PRESET_NRCS
  · subst h1
    refine ⟨⟨NRCS_DEPTH_INTERVALS, by simp [get_preset_intervals]⟩, ?_, ?_, ?_⟩
    · intro hmem; exact absurd (by simp) hmem
    · intro _ hmem; exact absurd (by simp) hmem
    · intro _ _ _ _ _ hmem; exact absurd (by simp) hmem
  by_cases h2 : preset = PRESET_BLM
  · subst h2
    refine ⟨⟨BLM_DEPTH_INTERVALS, by simp [get_preset_intervals, PRESET_NRCS, PRESET_BLM]⟩, ?_, ?_, ?_⟩
    · intro hmem; exact absurd (by simp) hmem
    · intro _ hmem; exact absurd (by simp) hmem
    · intro _ _ _ _ _ hmem; exact absurd (by simp) hmem
  rcases site with _ | s
  · -- no site supplied: every remaining branch returns the empty list
    have hok : get_preset_intervals preset none = Except.ok [] := by
      simp [get_preset_intervals, h1, h2]
    exact ⟨⟨[], hok⟩, fun _ => hok, fun _ _ => hok, by rintro _ _ ⟨⟩⟩
  by_cases h3 : preset = PRESET_CUSTOM
  · subst h3
    rcases hp : s.project with _ | project
    · exact absurd hp (h rfl s rfl)
    rcases hss : project.soilSettings with _ | ss
    · have hok : get_preset_intervals PRESET_CUSTOM (some s) = Except.ok [] := by
        simp [get_preset_intervals, h1, h2, hp, hss, emptySoilSettings]
      refine ⟨⟨[], hok⟩, ?_, by rintro ⟨⟩, ?_⟩
      · intro hmem; exact absurd (by simp) hmem
      · rintro s' p' ⟨⟩ hp' _ _
        exact hok
    · refine ⟨⟨ss.depthIntervals.getD [], ?_⟩, ?_, by rintro ⟨⟩, ?_⟩
      · simp [get_preset_intervals, h1, h2, hp, hss]
      · intro hmem; exact absurd (by simp) hmem
      · rintro s' p' ⟨⟩ hp' hnone _
        rw [hp] at hp'
        cases hp'
        rw [hss] at hnone
        cases hnone
  · have hok : get_preset_intervals preset (some s) = Except.ok [] := by
      simp [get_preset_intervals, h1, h2, h3]
    exact ⟨⟨[], hok⟩, fun _ => hok, by rintro ⟨⟩, fun _ _ _ _ _ _ => hok⟩

/-- Witness for C2 (amended) at concrete inputs: preset `CUSTOM` with no
site argument returns the empty list without raising. -/
theorem c2_amended_witness :
    get_preset_intervals PRESET_CUSTOM none = Except.ok [] :=
  (c2_amended PRESET_CUSTOM none (by rintro _ s ⟨⟩)).2.2.1 rfl (by decide)

end ConcreteEval

/-- C3: effective-preset resolution.  When the site has a project, the
result is the project's configured preset — `NONE` when the project has no
`soilSettings` or no preset set — regardless of the site's own `soilData`,
even when the project preset is `CUSTOM` or `NONE` (any configured string
is returned as-is).  When the site has no project, the site's own preset
applies, except that a site-level `CUSTOM` normalizes to `NONE` and a
missing preset yields `NONE`.  The side conditions `s ≠ ""` exclude the
empty string, which is not a value of the preset enum (Python's `or`
coalesces it like a missing preset). -/
theorem c3_effective_preset (site : Site) :
    (∀ p, site.project = some p →
      (p.soilSettings = none → get_effective_preset site = PRESET_NONE) ∧
      (∀ ss, p.soilSettings = some ss →
        (ss.depthIntervalPreset = none → get_effective_preset site = PRESET_NONE) ∧
        (∀ s, ss.depthIntervalPreset = some s → s ≠ "" →
          get_effective_preset site = s)) ∧
      (∀ sd, get_effective_preset { site with soilData := sd } =
        get_effective_preset site)) ∧
    (site.project = none →
      (site.soilData = none → get_effective_preset site = PRESET_NONE) ∧
      (∀ sd, site.soilData = some sd →
        (sd.depthIntervalPreset = some PRESET_CUSTOM →
          get_effective_preset site = PRESET_NONE) ∧
        (sd.depthIntervalPreset = none → get_effective_preset site = PRESET_NONE) ∧
        (∀ s, sd.depthIntervalPreset = some s → s ≠ PRESET_CUSTOM → s ≠ "" →
          get_effective_preset site = s))) := by
  constructor
  · intro p hp
    refine ⟨?_, ?_, ?_⟩
    · intro hss
      simp [get_effective_preset, hp, hss, emptySoilSettings, pyOrStr]
    · intro ss hss
      constructor
      · intro hpr
        simp [get_effective_preset, hp, hss, hpr, pyOrStr]
      · intro s hpr hs
        simp [get_effective_preset, hp, hss, hpr, pyOrStr, hs]
    · intro sd
      simp [get_effective_preset, hp]
  · intro hp
    constructor
    · intro hsd
      simp [get_effective_preset, hp, hsd, emptySoilData, pyOrStr]
    · intro sd hsd
      refine ⟨?_, ?_, ?_⟩
      · intro hpr
        simp [get_effective_preset, hp, hsd, hpr]
      · intro hpr
        simp [get_effective_preset, hp, hsd, hpr, pyOrStr]
      · intro s hpr hsC hsE
        simp [get_effective_preset, hp, hsd, hpr, pyOrStr, hsC, hsE]

/-- Witness for C3 at a concrete site: a project configured with `CUSTOM`
wins over a site-level `NRCS` preset. -/
theorem c3_effective_preset_witness :
    get_effective_preset (mkSite (some (projectWithPreset (some PRESET_CUSTOM)))
        (some (soilDataWith (some PRESET_NRCS) []))) = PRESET_CUSTOM :=
  (((c3_effective_preset _).1 (projectWithPreset (some PRESET_CUSTOM)) rfl).2.1
      { depthIntervalPreset := some PRESET_CUSTOM, depthIntervals := none } rfl).2
    PRESET_CUSTOM rfl (by decide)

/-- With a literal chroma argument of `0` (rounded to `0`), the converter
reduces to the neutral-branch lookup, for every hue input. -/
theorem munsell_to_lab_chroma_zero (table : MunsellTable) (h v : ℚ) :
    munsell_to_lab table h v 0 =
      if table.isEmpty then .ok none
      else .ok (tableGet table ("N", pyRound v, 0)) := by
  unfold munsell_to_lab
  simp [pyRound_zero]

/-- C6: hue is irrelevant for neutral colors: for any two hue inputs and
any value, `munsellToLab(h1, v, 0)` equals `munsellToLab(h2, v, 0)` — both
resolve to the `("N", roundedValue, 0)` table entry when the table is
nonempty — and in particular the wraparound pair `hue100 = 0` and
`hue100 = 100` return the identical result at value 5. -/
theorem c6_neutral_hue_irrelevant (table : MunsellTable) (h1 h2 v : ℚ)
    (hne : h1 ≠ h2) :
    munsell_to_lab table h1 v 0 = munsell_to_lab table h2 v 0 ∧
      (¬table.isEmpty →
        munsell_to_lab table h1 v 0 = .ok (tableGet table ("N", pyRound v, 0))) ∧
      munsell_to_lab table 0 5 0 = munsell_to_lab table 100 5 0 := by
  refine ⟨?_, ?_, ?_⟩
  · rw [munsell_to_lab_chroma_zero, munsell_to_lab_chroma_zero]
  · intro ht
    rw [munsell_to_lab_chroma_zero, if_neg ht]
  · rw [munsell_to_lab_chroma_zero, munsell_to_lab_chroma_zero]

/-- Witness for C6 at concrete inputs: hue 0 versus hue 100 at value 5
over the fixture table. -/
theorem c6_neutral_hue_irrelevant_witness :
    munsell_to_lab tableW 0 5 0 = munsell_to_lab tableW 100 5 0 :=
  (c6_neutral_hue_irrelevant tableW 0 100 5 (by decide)).1

/-- Indexing `_HUE_NAMES` succeeds for every index in `[0, 10)`. -/
theorem pyIndex_HUE_some {i : Int} (h0 : 0 ≤ i) (h10 : i < 10) :
    ∃ nm, pyIndex HUE_NAMES i = some nm := by
  unfold pyIndex
  rw [if_pos h0]
  have hlen : i.toNat < HUE_NAMES.length := by
    have : HUE_NAMES.length = 10 := rfl
    omega
  exact ⟨HUE_NAMES.get ⟨i.toNat, hlen⟩, List.get?_eq_get hlen⟩

/-- For an input hue in `[0, 100]`, the chromatic decoder always produces
a hue string (the list index stays in range, both with and without the
`substep == 0` rollback). -/
theorem decode_hue_str_ok (h : ℚ) (h0 : 0 ≤ h) (h100 : h ≤ 100) :
    ∃ s, decode_hue_str h = .ok s := by
  have hue0 : 0 ≤ normalized_hue h := by
    unfold normalized_hue
    split_ifs
    · norm_num
    · exact h0
  have hue100 : normalized_hue h < 100 := by
    unfold normalized_hue
    split_ifs with hh
    · norm_num
    · exact lt_of_le_of_ne h100 hh
  have hidx0 : 0 ≤ hue_index_of (normalized_hue h) :=
    Int.floor_nonneg.mpr (div_nonneg hue0 (by norm_num))
  have hidx10 : hue_index_of (normalized_hue h) < 10 := by
    unfold hue_index_of
    rw [Int.floor_lt]
    push_cast
    linarith
  by_cases hs : raw_substep (normalized_hue h) = 0
  · obtain ⟨nm, hnm⟩ := @pyIndex_HUE_some ((hue_index_of (normalized_hue h) + 9) % 10)
      (Int.emod_nonneg _ (by norm_num : (10:Int) ≠ 0))
      (Int.emod_lt_of_pos _ (by norm_num : (0:Int) < 10))
    refine ⟨gFormatHalf 4 ++ nm, ?_⟩
    unfold decode_hue_str
    simp only [hs, if_true, if_pos]
    rw [hnm]
  · obtain ⟨nm, hnm⟩ := pyIndex_HUE_some hidx0 hidx10
    refine ⟨gFormatHalf (raw_substep (normalized_hue h)) ++ nm, ?_⟩
    unfold decode_hue_str
    simp only [if_neg hs]
    rw [hnm]

/-- C5: for every table, every `hue100` in `[0, 100]` and every numeric
value and chroma, `munsell_to_lab` never raises: it returns `Except.ok`
of some optional result, any present result is a value stored in the
table (an unmapped combination yields absent, not an error), and with an
empty table it returns absent immediately for all inputs. -/
theorem c5_never_raises (table : MunsellTable) (h v c : ℚ)
    (h0 : 0 ≤ h) (h100 : h ≤ 100) :
    (∃ r : Option Lab, munsell_to_lab table h v c = .ok r ∧
      ∀ lab, r = some lab → ∃ k, tableGet table k = some lab) ∧
      munsell_to_lab [] h v c = .ok none := by
  refine ⟨?_, by simp [munsell_to_lab]⟩
  by_cases ht : table.isEmpty
  · exact ⟨none, by simp [munsell_to_lab, ht], by simp⟩
  · by_cases hc : pyRound c = 0
    · refine ⟨tableGet table ("N", pyRound v, 0), ?_, ?_⟩
      · simp [munsell_to_lab, ht, hc]
      · intro lab hl
        exact ⟨("N", pyRound v, 0), hl⟩
    · obtain ⟨s, hs⟩ := decode_hue_str_ok h h0 h100
      refine ⟨tableGet table (s, pyRound v, pyRound c), ?_, ?_⟩
      · simp [munsell_to_lab, ht, hc, hs]
      · intro lab hl
        exact ⟨(s, pyRound v, pyRound c), hl⟩

/-- Witness for C5 at concrete inputs: hue 5, value 5, chroma 1 over the
empty (degraded-mode) table. -/
theorem c5_never_raises_witness :
    munsell_to_lab [] 5 5 1 = Except.ok none :=
  (c5_never_raises tableW 5 5 1 (by decide) (by decide)).2

/-- Ordered insertion interacts with by-key filtering: inserting `a`
prepends it to the filtered sublist of its own key (everything placed
before `a` has a strictly smaller key) and leaves every other key's
sublist unchanged. -/
theorem filter_key_orderedInsert (k : Int) (a : Interval × String)
    (l : List (Interval × String)) :
    ((l.orderedInsert (fun x y => sortKeyOf x ≤ sortKeyOf y) a).filter
        fun x => decide (sortKeyOf x = k)) =
      if sortKeyOf a = k then
        a :: l.filter fun x => decide (sortKeyOf x = k)
      else l.filter fun x => decide (sortKeyOf x = k) := by
  induction l with
  | nil =>
    by_cases hak : sortKeyOf a = k <;>
      simp [List.orderedInsert, List.filter, hak]
  | cons b l ih =>
    simp only [List.orderedInsert]
    by_cases hab : sortKeyOf a ≤ sortKeyOf b
    · rw [if_pos hab]
      by_cases hak : sortKeyOf a = k <;>
        simp [List.filter_cons, hak]
    · rw [if_neg hab]
      by_cases hak : sortKeyOf a = k
      · have hbk : ¬sortKeyOf b = k := by
          intro hbk
          exact hab (hbk ▸ hak ▸ le_refl _)
        simp [List.filter_cons, hak, hbk, ih]
      · simp [List.filter_cons, hak, ih]

/-- The insertion sort used to model Python's stable `list.sort(key=...)`
preserves, for every key value, the sublist of elements carrying that
key — the formal statement of stability. -/
theorem filter_key_insertionSort (k : Int) (l : List (Interval × String)) :
    ((l.insertionSort fun x y => sortKeyOf x ≤ sortKeyOf y).filter
        fun x => decide (sortKeyOf x = k)) =
      l.filter fun x => decide (sortKeyOf x = k) := by
  induction l with
  | nil => rfl
  | cons a l ih =>
    rw [List.insertionSort, filter_key_orderedInsert]
    by_cases hak : sortKeyOf a = k <;> simp [List.filter_cons, hak, ih]

/-- The pre-sort list of `get_visible_intervals`, given the preset
intervals resolved for the site's effective preset. -/
theorem visible_unsorted_eq (site : Site) (pis : List Interval)
    (hpis : get_preset_intervals (get_effective_preset site) (some site) = Except.ok pis) :
    visible_unsorted site = Except.ok
      ((pis.map fun i => (i, get_effective_preset site)) ++
        ((site.soilData.getD emptySoilData).depthIntervals.getD []).map
          fun i => (i, PRESET_CUSTOM)) := by
  simp only [visible_unsorted]
  rw [hpis]
  rfl

/-- `get_visible_intervals` is the stable by-start sort of its pre-sort
list. -/
theorem get_visible_intervals_eq (site : Site) (base : List (Interval × String))
    (hbase : visible_unsorted site = Except.ok base) :
    get_visible_intervals site =
      Except.ok (base.insertionSort fun a b => sortKeyOf a ≤ sortKeyOf b) := by
  simp only [get_visible_intervals]
  rw [hbase]
  rfl

/-- C4: `get_visible_intervals` returns exactly the effective preset's
intervals tagged with the effective preset name plus every site-level
custom interval tagged `CUSTOM`, appended unconditionally with no
deduplication (the output is a permutation of the tagged concatenation,
so multiplicities — including `(start, end)` duplicates — are preserved
and no element is rewritten); the result is sorted non-decreasing by
start depth with a missing start ordered as `0` (`sortKeyOf`), and the
sort is stable: for every key, the sublist with that key equals its
sublist in the concatenation, so ties preserve insertion order. -/
theorem c4_visible_intervals (site : Site) (pis : List Interval)
    (hpis : get_preset_intervals (get_effective_preset site) (some site) = Except.ok pis)
    (l : List (Interval × String))
    (hl : get_visible_intervals site = Except.ok l) :
    l.Perm ((pis.map fun i => (i, get_effective_preset site)) ++
        ((site.soilData.getD emptySoilData).depthIntervals.getD []).map
          fun i => (i, PRESET_CUSTOM)) ∧
      l.Sorted (fun a b => sortKeyOf a ≤ sortKeyOf b) ∧
      ∀ k : Int, (l.filter fun x => decide (sortKeyOf x = k)) =
        (((pis.map fun i => (i, get_effective_preset site)) ++
          ((site.soilData.getD emptySoilData).depthIntervals.getD []).map
            fun i => (i, PRESET_CUSTOM)).filter fun x => decide (sortKeyOf x = k)) := by
  have hbase := visible_unsorted_eq site pis hpis
  have hsort := get_visible_intervals_eq site _ hbase
  rw [hl] at hsort
  injection hsort with hsort
  subst hsort
  refine ⟨?_, ?_, ?_⟩
  · exact List.perm_insertionSort _ _
  · haveI : IsTotal (Interval × String) (fun a b => sortKeyOf a ≤ sortKeyOf b) :=
      ⟨fun a b => le_total _ _⟩
    haveI : IsTrans (Interval × String) (fun a b => sortKeyOf a ≤ sortKeyOf b) :=
      ⟨fun a b c hab hbc => le_trans hab hbc⟩
    exact List.sorted_insertionSort _ _
  · intro k
    exact filter_key_insertionSort k _

/-- Witness for C4 on the spec's section-8 scenario (`site4`): the sorted
tagged list `l4`, its permutation relation to the unsorted concatenation,
and stability at the tied key `0` (preset row `0-5` before custom row
`0-10`). -/
theorem c4_visible_intervals_witness :
    (l4.Perm ((NRCS_DEPTH_INTERVALS.map fun i => (i, get_effective_preset site4)) ++
        ((site4.soilData.getD emptySoilData).depthIntervals.getD []).map
          fun i => (i, PRESET_CUSTOM))) ∧
      l4.Sorted (fun a b => sortKeyOf a ≤ sortKeyOf b) ∧
      (l4.filter fun x => decide (sortKeyOf x = 0)) =
        (((NRCS_DEPTH_INTERVALS.map fun i => (i, get_effective_preset site4)) ++
          ((site4.soilData.getD emptySoilData).depthIntervals.getD []).map
            fun i => (i, PRESET_CUSTOM)).filter fun x => decide (sortKeyOf x = 0)) := by
  have h := c4_visible_intervals site4 NRCS_DEPTH_INTERVALS (by rfl) l4 (by decide)
  exact ⟨h.1, h.2.1, h.2.2 0⟩

/-- The assembly loop is filtering followed by per-measurement mapping:
a measurement is processed exactly when its key is in the visible-key
list, and retained entries keep input order. -/
theorem assembleDepthData_eq_filter_mapM (table : MunsellTable)
    (keys : List (Option Int × Option Int)) (ms : List Measurement) :
    assembleDepthData table keys ms =
      (ms.filter fun m => decide (depth_key_m m ∈ keys)).mapM (build_depth_entry table) := by
  rw [← List.mapM'_eq_mapM]
  induction ms with
  | nil => rfl
  | cons m rest ih =>
    simp only [assembleDepthData, List.filter_cons, decide_eq_true_eq]
    by_cases hm : depth_key_m m ∈ keys
    · rw [if_pos hm, if_pos hm, List.mapM'_cons, ih]
      rfl
    · rw [if_neg hm, if_neg hm, ih]

/-- C7: for every site and measurement list, the assembler keeps a
measurement iff its `(start, end)` key is among the keys of the site's
visible intervals, discards all others entirely, and emits retained
entries in input order: the loop equals `filter` (by key membership)
followed by order-preserving `mapM` of the per-measurement entry
builder. -/
theorem c7_filtering (table : MunsellTable) (site : Site)
    (vis : List (Interval × String))
    (hvis : get_visible_intervals site = Except.ok vis) (ms : List Measurement) :
    assembleDepthData table (vis.map fun iv => depth_key iv.1) ms =
      (ms.filter fun m =>
          decide (depth_key_m m ∈ vis.map fun iv => depth_key iv.1)).mapM
        (build_depth_entry table) :=
  assembleDepthData_eq_filter_mapM table _ ms

/-- Witness for C7 at concrete inputs: of two measurements, the one whose
key matches the visible interval `0-10` of `site7` is retained and the
other is dropped. -/
theorem c7_filtering_witness :
    assembleDepthData [] ([(sampleInterval 0 10, PRESET_CUSTOM)].map fun iv => depth_key iv.1)
        [m1, m2] =
      (([m1, m2].filter fun m =>
          decide (depth_key_m m ∈
            [(sampleInterval 0 10, PRESET_CUSTOM)].map fun iv => depth_key iv.1)).mapM
        (build_depth_entry [])) :=
  c7_filtering [] site7 [(sampleInterval 0 10, PRESET_CUSTOM)] (by decide) [m1, m2]

/-- Shape of a successfully built entry: the depth interval is always
copied, the optional string fields pass through the truthiness filter,
and the `colorLAB` field is the converter result when all three channels
are present, absent otherwise. -/
theorem build_depth_entry_ok (table : MunsellTable) (m : Measurement) (e : DepthEntry)
    (he : build_depth_entry table m = Except.ok e) :
    e.depthInterval = depth_key_di m.depthInterval ∧
      e.texture = truthyStrOpt m.texture ∧
      e.rockFragmentVolume = truthyStrOpt m.rockFragmentVolume ∧
      (match m.colorHue, m.colorValue, m.colorChroma with
        | some h, some v, some c => munsell_to_lab table h v c = Except.ok e.colorLAB
        | _, _, _ => e.colorLAB = none) := by
  rcases mh : m.colorHue with _ | h <;>
    rcases mv : m.colorValue with _ | v <;>
      rcases mc : m.colorChroma with _ | c <;>
        simp [build_depth_entry, mh, mv, mc] at he
  case none.none.none | none.none.some | none.some.none | none.some.some
    | some.none.none | some.none.some | some.some.none =>
    subst he
    simp
  case some.some.some =>
    rcases hml : munsell_to_lab table h v c with errmsg | r
    · rw [hml] at he
      simp at he
    · rw [hml] at he
      simp at he
      subst he
      simp [hml]

/-- The truthiness filter keeps a value exactly when it is present and
non-empty. -/
theorem truthyStrOpt_isSome (x : Option String) :
    (truthyStrOpt x).isSome ↔ ∃ t, x = some t ∧ t ≠ "" := by
  rcases x with _ | t
  · simp [truthyStrOpt]
  · by_cases ht : t = "" <;> simp [truthyStrOpt, ht]

/-- A value surviving the truthiness filter is the source value. -/
theorem truthyStrOpt_eq_some (x : Option String) (t : String)
    (h : truthyStrOpt x = some t) : x = some t := by
  rcases x with _ | u
  · simp [truthyStrOpt] at h
  · by_cases hu : u = ""
    · simp [truthyStrOpt, hu] at h
    · simp only [truthyStrOpt, if_neg hu] at h
      exact h

/-- C8: a successfully built measurement entry always carries
`depthInterval` (the measurement's `(start, end)` pair); it includes
`texture` and `rockFragmentVolume` exactly when the source value is
present and truthy (an absent field is `none` — no null is ever stored —
and a present field copies the source value); it carries `colorLAB` iff
all three of `colorHue`, `colorValue`, `colorChroma` are non-absent (`0`
is a valid value, handled by `is not None`) and the converter returns a
result; and when the converter returns absent, the color field is
omitted while the entry is still produced. -/
theorem c8_entry_fields (table : MunsellTable) (m : Measurement) (e : DepthEntry)
    (he : build_depth_entry table m = Except.ok e) :
    e.depthInterval = depth_key_m m ∧
      (e.texture.isSome ↔ ∃ t, m.texture = some t ∧ t ≠ "") ∧
      (∀ t, e.texture = some t → m.texture = some t) ∧
      (e.rockFragmentVolume.isSome ↔ ∃ r, m.rockFragmentVolume = some r ∧ r ≠ "") ∧
      (∀ r, e.rockFragmentVolume = some r → m.rockFragmentVolume = some r) ∧
      (e.colorLAB.isSome ↔ ∃ h v c lab, m.colorHue = some h ∧ m.colorValue = some v ∧
        m.colorChroma = some c ∧ munsell_to_lab table h v c = Except.ok (some lab)) ∧
      (∀ h v c, m.colorHue = some h → m.colorValue = some v → m.colorChroma = some c →
        munsell_to_lab table h v c = Except.ok none → e.colorLAB = none) := by
  obtain ⟨hdi, htex, hrfv, hcol⟩ := build_depth_entry_ok table m e he
  refine ⟨hdi, ?_, ?_, ?_, ?_, ?_, ?_⟩
  · rw [htex]
    exact truthyStrOpt_isSome _
  · intro t ht
    exact truthyStrOpt_eq_some _ t (htex ▸ ht)
  · rw [hrfv]
    exact truthyStrOpt_isSome _
  · intro r hr
    exact truthyStrOpt_eq_some _ r (hrfv ▸ hr)
  · rcases mh : m.colorHue with _ | h <;>
      rcases mv : m.colorValue with _ | v <;>
        rcases mc : m.colorChroma with _ | c <;>
          simp only [mh, mv, mc] at hcol
    case none.none.none | none.none.some | none.some.none | none.some.some
      | some.none.none | some.none.some | some.some.none =>
      simp [hcol, mh, mv, mc]
    case some.some.some =>
      rcases hcl : e.colorLAB with _ | ⟨l1, l2, l3⟩
      · rw [hcl] at hcol
        simp [mh, mv, mc]
        intro h' v' c' hlab
        rw [hcol] at hlab
        simp at hlab
      · rw [hcl] at hcol
        simp [mh, mv, mc]
        exact ⟨l1, l2, l3, hcol⟩
  · intro h v c hh hv hc hml
    simp only [hh, hv, hc] at hcol
    rw [hml] at hcol
    simp at hcol
    exact hcol.symm

section ConcreteEvalEntry

attribute [local semireducible] Rat.mul Rat.inv Rat.add Rat.sub

/-- Witness for C8 at concrete inputs: the entry built from `m8` carries
the depth interval, its texture traces back to the measurement, and its
`colorLAB` is present because all three channels are set and the
converter hits the `("5R", 5, 1)` row of `tableW`. -/
theorem c8_entry_fields_witness :
    e8.depthInterval = depth_key_m m8 ∧
      m8.texture = some "CLAY" ∧
      e8.colorLAB.isSome := by
  have h := c8_entry_fields tableW m8 e8 (by decide)
  exact ⟨h.1, h.2.2.1 "CLAY" (by decide),
    (h.2.2.2.2.2.1).mpr ⟨5, 5, 1, (1, 2, 3), rfl, rfl, rfl, by decide⟩⟩

end ConcreteEvalEntry

/-- The cache consultation misses on the empty (initial) cache, whatever
the flag and site. -/
theorem cacheHit_empty (use_cache : Bool) (site : Site) :
    cacheHit use_cache [] site = none := by
  unfold cacheHit cacheGet
  rcases site.id with _ | i <;> simp [List.find?]

/-- C9: for every site whose latitude or longitude is missing, the
orchestrator with its cache in the initial (empty) state — whichever
value the cache-enabled flag has — returns the structured failure
`{"error": "Site missing latitude or longitude"}` without reaching the
downstream matching call (the outcome is `errorResult`, not
`downstream`). -/
theorem c9_missing_coordinates (use_cache : Bool) (table : MunsellTable) (site : Site)
    (hmiss : site.latitude = none ∨ site.longitude = none) :
    fetch_soil_id use_cache [] table site =
      .errorResult "Site missing latitude or longitude" := by
  unfold fetch_soil_id
  rw [cacheHit_empty]
  rcases hmiss with h | h <;> simp [pyFalsyNum, h]

/-- Witness for C9 at a concrete site with both coordinates missing. -/
theorem c9_missing_coordinates_witness :
    fetch_soil_id true [] tableW (siteWithId (some "site1") none none) =
      .errorResult "Site missing latitude or longitude" :=
  c9_missing_coordinates true tableW (siteWithId (some "site1") none none) (Or.inl rfl)

/-- Python falsiness of an optional number, propositionally. -/
theorem pyFalsyNum_iff (x : Option ℚ) :
    pyFalsyNum x = true ↔ x = none ∨ x = some 0 := by
  rcases x with _ | q
  · simp [pyFalsyNum]
  · simp [pyFalsyNum]

/-- C10: coordinate presence is decided by truthiness, not absence.  For
every cache state and site: when the cache consultation misses, the
orchestrator returns the structured error exactly when latitude is `None`
or `0` or longitude is `None` or `0` (so a site at the equator or prime
meridian is rejected as if its coordinates were missing); and a cache hit
returns the cached payload, bypassing the coordinate check entirely. -/
theorem c10_truthiness_and_cache (use_cache : Bool) (cache : SoilIdCache)
    (table : MunsellTable) (site : Site) :
    (cacheHit use_cache cache site = none →
      (fetch_soil_id use_cache cache table site =
          .errorResult "Site missing latitude or longitude" ↔
        (site.latitude = none ∨ site.latitude = some 0 ∨
          site.longitude = none ∨ site.longitude = some 0))) ∧
    (∀ v, cacheHit use_cache cache site = some v →
      fetch_soil_id use_cache cache table site = .cached v) := by
  constructor
  · intro hmiss
    unfold fetch_soil_id
    simp only [hmiss]
    by_cases hf : (pyFalsyNum site.latitude || pyFalsyNum site.longitude) = true
    · rw [if_pos hf]
      simp only [true_iff]
      rcases Bool.or_eq_true_iff.mp hf with h | h
      · rcases (pyFalsyNum_iff _).mp h with h' | h'
        · exact Or.inl h'
        · exact Or.inr (Or.inl h')
      · rcases (pyFalsyNum_iff _).mp h with h' | h'
        · exact Or.inr (Or.inr (Or.inl h'))
        · exact Or.inr (Or.inr (Or.inr h'))
    · rw [if_neg hf]
      constructor
      · intro hcontra
        rcases hvis : get_visible_intervals site with e | vis
        · simp only [hvis] at hcontra
          exact FetchOutcome.noConfusion hcontra
        · simp only [hvis] at hcontra
          rcases hasm : assembleDepthData table (vis.map fun iv => depth_key iv.1)
              ((site.soilData.getD emptySoilData).depthDependentData.getD []) with e | dd
          · simp only [hasm] at hcontra
            exact FetchOutcome.noConfusion hcontra
          · simp only [hasm] at hcontra
            exact FetchOutcome.noConfusion hcontra
      · intro hdisj
        exfalso
        apply hf
        rcases hdisj with h | h | h | h <;>
          simp [pyFalsyNum, h]
  · intro v hv
    unfold fetch_soil_id
    simp only [hv]

/-- Witness for C10 at concrete inputs: a zero latitude is rejected like a
missing one (equator case) on a cache miss, and a cached site id returns
the cached payload even though the site has no coordinates at all. -/
theorem c10_truthiness_and_cache_witness :
    fetch_soil_id true cacheW tableW (siteWithId (some "siteX") (some 0) (some 1)) =
        .errorResult "Site missing latitude or longitude" ∧
      fetch_soil_id true cacheW tableW (siteWithId (some "site1") none none) =
        .cached "cachedPayload" :=
  ⟨((c10_truthiness_and_cache true cacheW tableW
        (siteWithId (some "siteX") (some 0) (some 1))).1 (by decide)).mpr
      (Or.inr (Or.inl rfl)),
    (c10_truthiness_and_cache true cacheW tableW
        (siteWithId (some "site1") none none)).2 "cachedPayload" (by decide)⟩

end TerrasoExport
